import Mathlib

/-!
Shallow embedding of the klip clipboard MCP server
(src/error.rs, src/clipboard.rs, src/main.rs).

The platform clipboard subsystem (the `arboard` crate and the OS behind it)
is external to the repository; we model it as an oracle `Platform` saying
which of the three platform calls fail and with what description, together
with an explicit clipboard-content state (a `String`) threaded through the
operations.  All repository code is translated directly from the source.
-/

/-- Decidable equality for `Except`, so the model's results can be
evaluated on concrete inputs. -/
instance {α β : Type} [DecidableEq α] [DecidableEq β] :
    DecidableEq (Except α β) := fun x y =>
  match x, y with
  | .error a, .error b =>
      if h : a = b then .isTrue (by rw [h])
      else .isFalse (by intro hxy; cases hxy; exact h rfl)
  | .error _, .ok _ => .isFalse (by intro hxy; cases hxy)
  | .ok _, .error _ => .isFalse (by intro hxy; cases hxy)
  | .ok a, .ok b =>
      if h : a = b then .isTrue (by rw [h])
      else .isFalse (by intro hxy; cases hxy; exact h rfl)

/-- `ClipboardError` from src/error.rs: the closed set of failure kinds. -/
inductive ClipboardError where
  | InitializationFailed (detail : String)
  | CopyFailed (detail : String)
  | ReadFailed (detail : String)
  | NonTextData
  | Empty
deriving DecidableEq

/-- The `#[error("...")]` display strings of src/error.rs (thiserror's
`Display` impl, reached by `e.to_string()` in src/main.rs). -/
def ClipboardError.toString : ClipboardError → String
  | .InitializationFailed d => "Failed to initialize clipboard: " ++ d
  | .CopyFailed d => "Failed to copy to clipboard: " ++ d
  | .ReadFailed d => "Failed to read from clipboard: " ++ d
  | .NonTextData => "Clipboard contains non-text data"
  | .Empty => "Clipboard is empty"

/-- Oracle for the external platform clipboard subsystem (`arboard`):
`initFailure = some d` means `Clipboard::new()` fails with description `d`;
`copyFailure t = some d` means `set_text t` is rejected with description `d`;
`readFailure = some d` means `get_text` is rejected with description `d`.
`none` means the corresponding platform call succeeds. -/
structure Platform where
  initFailure : Option String
  copyFailure : String → Option String
  readFailure : Option String

/-- `ClipboardManager` of src/clipboard.rs: owns one live handle to the
platform clipboard subsystem (modelled by the `Platform` oracle it was
opened against). -/
structure ClipboardManager where
  platform : Platform

/-- `ClipboardManager::new` (src/clipboard.rs lines 11-16): open a platform
clipboard handle, mapping a platform failure to `InitializationFailed`. -/
def ClipboardManager.new (p : Platform) : Except ClipboardError ClipboardManager :=
  match p.initFailure with
  | some d => .error (.InitializationFailed d)
  | none => .ok ⟨p⟩

/-- `ClipboardManager::copy` (src/clipboard.rs lines 19-23): `set_text`,
mapping a platform failure to `CopyFailed`.  The clipboard-content state is
explicit: on success the new content is exactly `text` (arboard's
`set_text` replaces the clipboard content in full). -/
def ClipboardManager.copy (m : ClipboardManager) (text : String)
    (_clip : String) : Except ClipboardError String :=
  match m.platform.copyFailure text with
  | some d => .error (.CopyFailed d)
  | none => .ok text

/-- `ClipboardManager::get` (src/clipboard.rs lines 26-30): `get_text`,
mapping a platform failure to `ReadFailed`; on success it returns the
current clipboard content verbatim. -/
def ClipboardManager.get (m : ClipboardManager) (clip : String) :
    Except ClipboardError String :=
  match m.platform.readFailure with
  | some d => .error (.ReadFailed d)
  | none => .ok clip

/-- `CopyToClipboardInput` from src/main.rs: the tool's input parameters. -/
structure CopyToClipboardInput where
  text : String
deriving DecidableEq

/-- rmcp's `ErrorData` as used by src/main.rs: an error code and a
human-readable message (the `None` data field is omitted). -/
structure McpError where
  code : Int
  message : String
deriving DecidableEq

/-- `McpError::new(ErrorCode c, msg, None)` as called in src/main.rs. -/
def McpError.new (code : Int) (message : String) : McpError :=
  ⟨code, message⟩

/-- rmcp content block; the tool only ever builds `Content::text`. -/
inductive Content where
  | text (s : String)
deriving DecidableEq

/-- rmcp `CallToolResult`: content blocks plus the error flag. -/
structure CallToolResult where
  content : List Content
  isError : Bool
deriving DecidableEq

/-- `CallToolResult::success`: wraps content with the error flag off. -/
def CallToolResult.success (content : List Content) : CallToolResult :=
  ⟨content, false⟩

/-- The `format!("Successfully copied {} characters to clipboard", n)` of
src/main.rs line 61. -/
def successMessage (n : Nat) : String :=
  "Successfully copied " ++ toString n ++ " characters to clipboard"

/-- `KlipServer::copy_to_clipboard` (src/main.rs lines 47-64), with the
platform oracle and the clipboard-content state made explicit.  Returns the
protocol result together with the clipboard content after the call.
`params.text.length` is Rust's `params.text.chars().count()`: both count
Unicode scalar values. -/
def KlipServer.copy_to_clipboard (p : Platform) (params : CopyToClipboardInput)
    (clip : String) : Except McpError CallToolResult × String :=
  let char_count := params.text.length
  match ClipboardManager.new p with
  | .error e => (.error (McpError.new (-32000) e.toString), clip)
  | .ok manager =>
    match manager.copy params.text clip with
    | .error e => (.error (McpError.new (-32000) e.toString), clip)
    | .ok clip' =>
      (.ok (CallToolResult.success [Content.text (successMessage char_count)]),
        clip')

/-- A platform on which every clipboard call succeeds. -/
def okPlatform : Platform :=
  ⟨none, fun _ => none, none⟩

/-- A platform whose clipboard subsystem is unavailable: `Clipboard::new`
fails with the given description. -/
def downPlatform : Platform :=
  ⟨some "no display server", fun _ => none, none⟩

/-- A platform on which opening succeeds but every write is rejected. -/
def lockedPlatform : Platform :=
  ⟨none, fun _ => some "clipboard locked", none⟩

/-- Characterization of `copy_to_clipboard` by cases on the platform
oracle; shared by the claim proofs below. -/
theorem copy_to_clipboard_eq (p : Platform) (s clip : String) :
    KlipServer.copy_to_clipboard p ⟨s⟩ clip =
      match p.initFailure with
      | some d =>
          (.error (McpError.new (-32000)
            (ClipboardError.InitializationFailed d).toString), clip)
      | none =>
        match p.copyFailure s with
        | some d =>
            (.error (McpError.new (-32000)
              (ClipboardError.CopyFailed d).toString), clip)
        | none =>
            (.ok (CallToolResult.success
              [Content.text (successMessage s.length)]), s) := by
  cases hi : p.initFailure with
  | some d =>
      simp [KlipServer.copy_to_clipboard, ClipboardManager.new, hi]
  | none =>
      cases hc : p.copyFailure s with
      | some d =>
          simp [KlipServer.copy_to_clipboard, ClipboardManager.new,
                ClipboardManager.copy, hi, hc]
      | none =>
          simp [KlipServer.copy_to_clipboard, ClipboardManager.new,
                ClipboardManager.copy, hi, hc]

/-- Shape of every successful `copy_to_clipboard` call: the result is the
success message for the scalar-value count of the input, and the clipboard
afterwards holds exactly the input text. -/
theorem copy_ok_shape (p : Platform) (s clip clip' : String)
    (r : CallToolResult)
    (h : KlipServer.copy_to_clipboard p ⟨s⟩ clip = (.ok r, clip')) :
    r = CallToolResult.success [Content.text (successMessage s.length)] ∧
      clip' = s := by
  rw [copy_to_clipboard_eq] at h
  cases hi : p.initFailure with
  | some d => rw [hi] at h; simp [Prod.ext_iff] at h
  | none =>
    rw [hi] at h
    cases hc : p.copyFailure s with
    | some d => rw [hc] at h; simp [Prod.ext_iff] at h
    | none =>
      rw [hc] at h
      simp [Prod.ext_iff] at h
      exact ⟨h.1.symm, h.2.symm⟩

/-- Content of any successful `ClipboardManager.copy`: the clipboard
afterwards holds exactly the copied text. -/
theorem copy_ok_content (m : ClipboardManager) (t clip c : String)
    (h : m.copy t clip = .ok c) : c = t := by
  unfold ClipboardManager.copy at h
  cases hc : m.platform.copyFailure t with
  | some d => rw [hc] at h; simp at h
  | none => rw [hc] at h; exact (Except.ok.inj h).symm

/-- Claim C1: when `copy_to_clipboard` succeeds it returns exactly one text
content block whose message is exactly
"Successfully copied <N> characters to clipboard", where N is the number of
Unicode scalar values of the input (`String.length` counts scalar values,
as Rust's `chars().count()` does), not the number of bytes: "🌍" counts as
1 scalar value though it occupies 4 UTF-8 bytes. -/
theorem copy_success_reports_scalar_count (p : Platform) (s clip clip' : String)
    (r : CallToolResult)
    (h : KlipServer.copy_to_clipboard p ⟨s⟩ clip = (.ok r, clip')) :
    r = CallToolResult.success
        [Content.text ("Successfully copied " ++ toString s.length ++
          " characters to clipboard")] ∧
    "🌍".length = 1 ∧ "🌍".utf8ByteSize = 4 :=
  ⟨(copy_ok_shape p s clip clip' r h).1, by decide, by decide⟩

/-- Witness for C1: a concrete successful call with "🌍" reports count 1. -/
theorem copy_success_reports_scalar_count_witness :
    CallToolResult.success
        [Content.text "Successfully copied 1 characters to clipboard"] =
      CallToolResult.success
        [Content.text ("Successfully copied " ++ toString "🌍".length ++
          " characters to clipboard")] ∧
    "🌍".length = 1 ∧ "🌍".utf8ByteSize = 4 :=
  copy_success_reports_scalar_count okPlatform "🌍" "" "🌍"
    (CallToolResult.success
      [Content.text "Successfully copied 1 characters to clipboard"])
    (by decide)

/-- Claim C2: every failure of `ClipboardManager.new` or of `copy` during a
`copy_to_clipboard` call yields a structured protocol error (never a
success, never a silent drop) with the fixed sentinel code -32000 and a
message derived from the `ClipboardError` description; the clipboard state
is untouched and no retry happens (the call returns at once). -/
theorem clipboard_failure_becomes_protocol_error (p : Platform)
    (s clip : String) (e : ClipboardError)
    (h : ClipboardManager.new p = .error e ∨
         ∃ m, ClipboardManager.new p = .ok m ∧ m.copy s clip = .error e) :
    KlipServer.copy_to_clipboard p ⟨s⟩ clip =
      (.error (McpError.new (-32000) e.toString), clip) := by
  rcases h with h1 | ⟨m, hm, hc⟩
  · simp [KlipServer.copy_to_clipboard, h1]
  · simp [KlipServer.copy_to_clipboard, hm, hc]

/-- Witness for C2: an unavailable platform produces the structured
protocol error with code -32000 and the error description. -/
theorem clipboard_failure_becomes_protocol_error_witness :
    KlipServer.copy_to_clipboard downPlatform ⟨"hi"⟩ "prior" =
      (.error (McpError.new (-32000)
        (ClipboardError.InitializationFailed "no display server").toString),
        "prior") :=
  clipboard_failure_becomes_protocol_error downPlatform "hi" "prior"
    (ClipboardError.InitializationFailed "no display server")
    (Or.inl rfl)

/-- Claim C3: a successful `copy` of `s` followed immediately by a
successful `get`, with no intervening external writer (the state is
threaded directly), returns exactly `s`, verbatim. -/
theorem copy_then_get_roundtrip (m : ClipboardManager) (s clip clip' r : String)
    (h1 : m.copy s clip = .ok clip')
    (h2 : m.get clip' = .ok r) :
    r = s := by
  have hcs : clip' = s := copy_ok_content m s clip clip' h1
  unfold ClipboardManager.get at h2
  cases hr : m.platform.readFailure with
  | some d => rw [hr] at h2; simp at h2
  | none => rw [hr] at h2; exact (Except.ok.inj h2).symm.trans hcs

/-- Witness for C3: round trip of a string with a combining mark and an
astral-plane scalar. -/
theorem copy_then_get_roundtrip_witness : "é🌍" = "é🌍" :=
  copy_then_get_roundtrip ⟨okPlatform⟩ "é🌍" "old" "é🌍" "é🌍" rfl rfl

/-- Claim C4: each successful copy replaces the clipboard content in full;
two sequential successful copies with texts t1 then t2 leave exactly t2
(last-write-wins, no accumulation); and copying the same text twice yields
the same final clipboard content (end-state idempotence). -/
theorem copy_last_write_wins (m : ClipboardManager)
    (t1 t2 t clip c1 c2 d1 d2 : String)
    (h1 : m.copy t1 clip = .ok c1) (h2 : m.copy t2 c1 = .ok c2)
    (h3 : m.copy t clip = .ok d1) (h4 : m.copy t d1 = .ok d2) :
    c1 = t1 ∧ c2 = t2 ∧ d2 = d1 := by
  have e1 := copy_ok_content m t1 clip c1 h1
  have e2 := copy_ok_content m t2 c1 c2 h2
  have e3 := copy_ok_content m t clip d1 h3
  have e4 := copy_ok_content m t d1 d2 h4
  exact ⟨e1, e2, e4.trans e3.symm⟩

/-- Witness for C4 at concrete texts. -/
theorem copy_last_write_wins_witness :
    "first" = "first" ∧ "second" = "second" ∧ "same" = "same" :=
  copy_last_write_wins ⟨okPlatform⟩ "first" "second" "same" "old"
    "first" "second" "same" "same" rfl rfl rfl rfl

/-- Claim C5: when the platform clipboard subsystem is unavailable,
`ClipboardManager.new` fails with `InitializationFailed` and the
`copy_to_clipboard` call returns a structured error (it is a total
function: no hang, no crash) with the clipboard state unchanged — no
mutation occurs on that call. -/
theorem init_failure_surfaces_structured_error (p : Platform)
    (d s clip : String)
    (h : p.initFailure = some d) :
    ClipboardManager.new p = .error (.InitializationFailed d) ∧
    KlipServer.copy_to_clipboard p ⟨s⟩ clip =
      (.error (McpError.new (-32000)
        (ClipboardError.InitializationFailed d).toString), clip) := by
  constructor
  · simp [ClipboardManager.new, h]
  · simp [KlipServer.copy_to_clipboard, ClipboardManager.new, h]

/-- Witness for C5 on a concrete unavailable platform. -/
theorem init_failure_surfaces_structured_error_witness :
    ClipboardManager.new downPlatform =
      .error (.InitializationFailed "no display server") ∧
    KlipServer.copy_to_clipboard downPlatform ⟨"hello"⟩ "prior" =
      (.error (McpError.new (-32000)
        (ClipboardError.InitializationFailed "no display server").toString),
        "prior") :=
  init_failure_surfaces_structured_error downPlatform "no display server"
    "hello" "prior" rfl

/-- Claim C6, counterexample: invoking `copy_to_clipboard` with
"Hello 世界 🌍" does NOT report 9 characters (the string has 10 Unicode
scalar values, so the code reports 10). -/
theorem hello_unicode_count_not_nine :
    (KlipServer.copy_to_clipboard okPlatform ⟨"Hello 世界 🌍"⟩ "").1 ≠
      .ok (CallToolResult.success
        [Content.text "Successfully copied 9 characters to clipboard"]) := by
  decide

/-- Claim C6, amended: invoking `copy_to_clipboard` with
"Hello 世界 🌍" produces a success message reporting 10 scalar values, and
a round-trip read returns the identical string. -/
theorem hello_unicode_count_ten_roundtrip :
    KlipServer.copy_to_clipboard okPlatform ⟨"Hello 世界 🌍"⟩ "" =
      (.ok (CallToolResult.success
        [Content.text "Successfully copied 10 characters to clipboard"]),
        "Hello 世界 🌍") ∧
    ClipboardManager.get ⟨okPlatform⟩
        (KlipServer.copy_to_clipboard okPlatform ⟨"Hello 世界 🌍"⟩ "").2 =
      .ok "Hello 世界 🌍" :=
  ⟨by decide, by decide⟩

/-- Claim C7: copying the empty string is accepted (the code puts no
constraint on its input) and, whenever the platform accepts the write,
succeeds leaving the clipboard containing the empty string. -/
theorem copy_empty_string_ok (m : ClipboardManager) (clip : String)
    (h : m.platform.copyFailure "" = none) :
    m.copy "" clip = .ok "" := by
  simp [ClipboardManager.copy, h]

/-- Witness for C7 on a concrete platform. -/
theorem copy_empty_string_ok_witness :
    ClipboardManager.copy ⟨okPlatform⟩ "" "prior" = .ok "" :=
  copy_empty_string_ok ⟨okPlatform⟩ "prior" rfl

/-- Claim C8: every protocol error produced by `copy_to_clipboard` carries
the description of an `InitializationFailed` or a `CopyFailed` error; the
kinds `ReadFailed`, `NonTextData` and `Empty` never reach the caller
through the single exposed write-only tool. -/
theorem errors_only_init_or_copy (p : Platform) (s clip : String)
    (err : McpError)
    (h : (KlipServer.copy_to_clipboard p ⟨s⟩ clip).1 = .error err) :
    ∃ d, err = McpError.new (-32000)
          (ClipboardError.InitializationFailed d).toString ∨
        err = McpError.new (-32000) (ClipboardError.CopyFailed d).toString := by
  rw [copy_to_clipboard_eq] at h
  cases hi : p.initFailure with
  | some d =>
      rw [hi] at h
      simp at h
      exact ⟨d, Or.inl h.symm⟩
  | none =>
    rw [hi] at h
    cases hc : p.copyFailure s with
    | some d =>
        rw [hc] at h
        simp at h
        exact ⟨d, Or.inr h.symm⟩
    | none =>
        rw [hc] at h
        simp at h

/-- Witness for C8 on a concrete failing platform. -/
theorem errors_only_init_or_copy_witness :
    ∃ d, McpError.new (-32000)
          (ClipboardError.InitializationFailed "no display server").toString =
        McpError.new (-32000)
          (ClipboardError.InitializationFailed d).toString ∨
      McpError.new (-32000)
          (ClipboardError.InitializationFailed "no display server").toString =
        McpError.new (-32000) (ClipboardError.CopyFailed d).toString :=
  errors_only_init_or_copy downPlatform "hi" ""
    (McpError.new (-32000)
      (ClipboardError.InitializationFailed "no display server").toString)
    rfl

/-- Claim C9: the success result of `copy_to_clipboard` is a deterministic
pure function of the input text alone: two successful invocations with
equal text, on any platforms and from any prior clipboard contents,
produce identical results. -/
theorem success_message_depends_only_on_text (p₁ p₂ : Platform)
    (s clip₁ clip₂ clip₁' clip₂' : String) (r₁ r₂ : CallToolResult)
    (h1 : KlipServer.copy_to_clipboard p₁ ⟨s⟩ clip₁ = (.ok r₁, clip₁'))
    (h2 : KlipServer.copy_to_clipboard p₂ ⟨s⟩ clip₂ = (.ok r₂, clip₂')) :
    r₁ = r₂ := by
  rw [(copy_ok_shape p₁ s clip₁ clip₁' r₁ h1).1,
      (copy_ok_shape p₂ s clip₂ clip₂' r₂ h2).1]

/-- Witness for C9: the same text from two different prior clipboard
contents yields the same result. -/
theorem success_message_depends_only_on_text_witness :
    CallToolResult.success
        [Content.text "Successfully copied 1 characters to clipboard"] =
      CallToolResult.success
        [Content.text "Successfully copied 1 characters to clipboard"] :=
  success_message_depends_only_on_text okPlatform okPlatform "x"
    "previous" "other" "x" "x"
    (CallToolResult.success
      [Content.text "Successfully copied 1 characters to clipboard"])
    (CallToolResult.success
      [Content.text "Successfully copied 1 characters to clipboard"])
    (by decide) (by decide)

/-- Claim C10: the human-readable description of each `ClipboardError` is
the fixed one-line format of src/error.rs, and the message placed in the
protocol error result is exactly such a description. -/
theorem error_display_and_protocol_message (d : String) (p : Platform)
    (s clip : String) (err : McpError)
    (h : (KlipServer.copy_to_clipboard p ⟨s⟩ clip).1 = .error err) :
    (ClipboardError.InitializationFailed d).toString =
        "Failed to initialize clipboard: " ++ d ∧
    (ClipboardError.CopyFailed d).toString =
        "Failed to copy to clipboard: " ++ d ∧
    (ClipboardError.ReadFailed d).toString =
        "Failed to read from clipboard: " ++ d ∧
    ∃ e : ClipboardError, err.message = e.toString := by
  refine ⟨rfl, rfl, rfl, ?_⟩
  rw [copy_to_clipboard_eq] at h
  cases hi : p.initFailure with
  | some d' =>
      rw [hi] at h
      simp at h
      subst h
      exact ⟨.InitializationFailed d', rfl⟩
  | none =>
    rw [hi] at h
    cases hc : p.copyFailure s with
    | some d' =>
        rw [hc] at h
        simp at h
        subst h
        exact ⟨.CopyFailed d', rfl⟩
    | none =>
        rw [hc] at h
        simp at h

/-- Witness for C10 on a concrete failing call. -/
theorem error_display_and_protocol_message_witness :
    (ClipboardError.InitializationFailed "boom").toString =
        "Failed to initialize clipboard: " ++ "boom" ∧
    (ClipboardError.CopyFailed "boom").toString =
        "Failed to copy to clipboard: " ++ "boom" ∧
    (ClipboardError.ReadFailed "boom").toString =
        "Failed to read from clipboard: " ++ "boom" ∧
    ∃ e : ClipboardError,
      (McpError.new (-32000)
        (ClipboardError.CopyFailed "clipboard locked").toString).message =
          e.toString :=
  error_display_and_protocol_message "boom" lockedPlatform "text" "prior"
    (McpError.new (-32000)
      (ClipboardError.CopyFailed "clipboard locked").toString)
    rfl
